import Mathlib

/-!
Shallow embedding of the JustFitness backend authentication core.

Source files embedded:
- `Backend/lib/userModel.js` (the `AuthService` class: JWT helpers, the
  in-memory `refreshTokens` array and its operations, input validation,
  `sanitizeUser`);
- `Backend/routes/auth.js` (the register / login / me / refresh / logout /
  logout-all route handlers).

Modelling conventions:
- A JWT string is modelled by its decoded content: payload fields
  (`userId`, `email`, `type`), the expiry stamp baked in at signing time,
  and the secret it was signed with.  HS256 signing is deterministic and
  the encoding is injective, so equality of token strings coincides with
  equality of these fields.
- Time is a `Nat` (milliseconds); each operation takes the current time
  `now` explicitly where the source reads the clock.
- The process-wide mutable `refreshTokens` array becomes an explicit
  `List RefreshTokenRecord` threaded through every operation;
  `Array.prototype.push` appends at the end, `find`/`findIndex` scan from
  the front, `splice(i, 1)` is `eraseIdx i`.
- Database lookups (`UserModel.findByEmail`, `UserModel.findById`), the
  bcrypt capability and user creation are oracles passed as function
  arguments; failures of the surrounding `try` blocks are out of scope.
- JS object field removal by rest-destructuring (`sanitizeUser`) is
  modelled by an `Option` field set to `none`.
-/

namespace JustFitness

deriving instance DecidableEq for Except

/-- Token kind discriminator: the `type` claim in the JWT payload
(`'access'` / `'refresh'`). -/
inductive TokenType where
  | access
  | refresh
deriving DecidableEq

/-- A signed JWT, represented by its decoded payload, its expiry stamp and
the signing secret. -/
structure Token where
  userId : Nat
  email : String
  type : TokenType
  exp : Nat
  secret : String
deriving DecidableEq

/-- Error cases of `jwt.verify`: bad signature / structure, or past expiry. -/
inductive JwtError where
  | invalid
  | expired
deriving DecidableEq

/-- Model of `jwt.verify(token, secret, cb)` at time `now`: the callback
receives an error iff the signature does not check out or the token is past
its expiry; otherwise it receives the decoded payload. -/
def jwtVerify (token : Token) (secret : String) (now : Nat) : Except JwtError Token :=
  if token.secret ≠ secret then .error .invalid
  else if token.exp ≤ now then .error .expired
  else .ok token

/-- `AuthService.generateAccessToken(userId, email)`: signs an access token
with a 15-minute expiry (`expiresIn: '15m'`). -/
def generateAccessToken (userId : Nat) (email : String) (secret : String) (now : Nat) :
    Token :=
  { userId := userId, email := email, type := .access
    exp := now + 15 * 60 * 1000, secret := secret }

/-- `AuthService.generateRefreshToken(userId, email)`: signs a refresh token
with a 7-day expiry (`expiresIn: '7d'`). -/
def generateRefreshToken (userId : Nat) (email : String) (secret : String) (now : Nat) :
    Token :=
  { userId := userId, email := email, type := .refresh
    exp := now + 7 * 24 * 60 * 60 * 1000, secret := secret }

/-- A record of the in-memory `refreshTokens` array:
`{ token, userId, createdAt, expiresAt }`. -/
structure RefreshTokenRecord where
  token : Token
  userId : Nat
  createdAt : Nat
  expiresAt : Nat
deriving DecidableEq

/-- `AuthService.generateTokens(userId, email)`: generates both tokens and
pushes a record for the refresh token onto the `refreshTokens` array with
`createdAt = new Date()` and `expiresAt = Date.now() + 7*24*60*60*1000`. -/
def generateTokens (userId : Nat) (email : String) (secret : String) (now : Nat)
    (refreshTokens : List RefreshTokenRecord) :
    (Token × Token) × List RefreshTokenRecord :=
  let accessToken := generateAccessToken userId email secret now
  let refreshToken := generateRefreshToken userId email secret now
  ((accessToken, refreshToken),
    refreshTokens ++ [{ token := refreshToken, userId := userId, createdAt := now
                        expiresAt := now + 7 * 24 * 60 * 60 * 1000 }])

/-- The distinct rejection reasons of `AuthService.verifyRefreshToken`. -/
inductive AuthError where
  | invalidOrExpiredToken
  | tokenNotFound
  | tokenExpired
  | invalidTokenType
deriving DecidableEq

/-- The `Error` message carried by each rejection of
`AuthService.verifyRefreshToken`. -/
def authErrorMessage : AuthError → String
  | .invalidOrExpiredToken => "Invalid or expired refresh token"
  | .tokenNotFound => "Refresh token not found"
  | .tokenExpired => "Refresh token expired"
  | .invalidTokenType => "Invalid token type"

/-- `AuthService.removeRefreshToken(refreshToken)`: `findIndex` on the array,
and if the index is `> -1`, `splice(tokenIndex, 1)` and return `true`;
otherwise return `false`. -/
def removeRefreshToken (refreshTokens : List RefreshTokenRecord) (refreshToken : Token) :
    Bool × List RefreshTokenRecord :=
  match refreshTokens.findIdx? (fun rt => rt.token == refreshToken) with
  | some tokenIndex => (true, refreshTokens.eraseIdx tokenIndex)
  | none => (false, refreshTokens)

/-- `AuthService.verifyRefreshToken(refreshToken)`: `jwt.verify`, then
store lookup, then the stored record's expiry check (removing the record if
expired), then the `decoded.type !== 'refresh'` check, in that order.
Returns the rejection or the decoded payload, together with the resulting
`refreshTokens` array. -/
def verifyRefreshToken (refreshToken : Token) (secret : String) (now : Nat)
    (refreshTokens : List RefreshTokenRecord) :
    Except AuthError Token × List RefreshTokenRecord :=
  match jwtVerify refreshToken secret now with
  | .error _ => (.error .invalidOrExpiredToken, refreshTokens)
  | .ok decoded =>
      match refreshTokens.find? (fun rt => rt.token == refreshToken) with
      | none => (.error .tokenNotFound, refreshTokens)
      | some storedRefreshToken =>
          if storedRefreshToken.expiresAt < now then
            (.error .tokenExpired, (removeRefreshToken refreshTokens refreshToken).2)
          else if decoded.type ≠ .refresh then
            (.error .invalidTokenType, refreshTokens)
          else
            (.ok decoded, refreshTokens)

/-- `AuthService.getUserRefreshTokens(userId)`: filter by `userId`. -/
def getUserRefreshTokens (refreshTokens : List RefreshTokenRecord) (userId : Nat) :
    List RefreshTokenRecord :=
  refreshTokens.filter (fun rt => rt.userId == userId)

/-- `AuthService.removeAllUserRefreshTokens(userId)`: filter the user's
records, call `removeRefreshToken` for each of them in order, and return the
length of the filtered snapshot. -/
def removeAllUserRefreshTokens (refreshTokens : List RefreshTokenRecord) (userId : Nat) :
    Nat × List RefreshTokenRecord :=
  let userTokens := refreshTokens.filter (fun rt => rt.userId == userId)
  let rest := userTokens.foldl (fun store t => (removeRefreshToken store t.token).2) refreshTokens
  (userTokens.length, rest)

/-- A user row as the route handlers see it.  `password` is the stored hash
column; it is `none` when the field is absent from the object
(`UserModel.findById` does not select it, and `sanitizeUser` strips it). -/
structure UserRecord where
  id : Nat
  email : String
  password : Option String
  name : String
  phone : Option String
deriving DecidableEq

/-- `AuthService.sanitizeUser(user)`: `const { password, ...rest } = user` —
the returned object has no `password` key. -/
def sanitizeUser (user : UserRecord) : UserRecord :=
  { user with password := none }

/-- JS truthiness of an optional string field of `req.body`:
`undefined` and `''` are falsy. -/
def truthy : Option String → Bool
  | none => false
  | some s => s != ""

/-- `AuthService.validateLogin(email, password)`: collects
`'Email is required'` and `'Password is required'`. -/
def validateLogin (email password : Option String) : Bool × List String :=
  let errors :=
    (if !truthy email then ["Email is required"] else []) ++
    (if !truthy password then ["Password is required"] else [])
  (errors.isEmpty, errors)

/-- The characters of the JS `\s` class relevant to ASCII input; `\S` is its
complement. -/
def jsNonSpace (c : Char) : Bool :=
  !(c == ' ' || c == '\t' || c == '\n' || c == '\r' || c == '\x0b' || c == '\x0c')

/-- Boolean test of `/\S+@\S+\.\S+/` (unanchored search): some position `p`
holds `'@'` preceded by a non-space character, some later position `q` holds
`'.'` followed by a non-space character, with at least one character strictly
between `p` and `q` and every character strictly between them non-space. -/
def emailFormatOk (email : String) : Bool :=
  let cs := email.toList
  let n := cs.length
  (List.range n).any (fun p =>
    (List.range n).any (fun q =>
      (cs.getD p ' ' == '@') && (cs.getD q ' ' == '.') &&
      decide (1 ≤ p) && decide (p + 2 ≤ q) && decide (q + 1 < n) &&
      jsNonSpace (cs.getD (p - 1) ' ') && jsNonSpace (cs.getD (q + 1) ' ') &&
      (List.range n).all (fun i =>
        !(decide (p < i) && decide (i < q)) || jsNonSpace (cs.getD i ' '))))

/-- `AuthService.validateRegistration(email, password, name)`: collects every
violated rule, in source order. -/
def validateRegistration (email password name : Option String) : Bool × List String :=
  let errors :=
    (if !truthy email then ["Email is required"] else []) ++
    (if !truthy password then ["Password is required"] else []) ++
    (if !truthy name then ["Name is required"] else []) ++
    (if truthy password && decide ((password.getD "").length < 6) then
      ["Password must be at least 6 characters long"] else []) ++
    (if truthy email && !emailFormatOk (email.getD "") then
      ["Invalid email format"] else [])
  (errors.isEmpty, errors)

/-- An HTTP response of the auth routes, flattened: status code, the
`success` flag, the `message`, and the optional `errors` / `data` fields. -/
structure ApiResponse where
  status : Nat
  success : Bool
  message : String
  errors : List String := []
  user : Option UserRecord := none
  accessToken : Option Token := none
  refreshToken : Option Token := none
deriving DecidableEq

/-- The `POST /login` handler.  `findByEmail` is the `UserModel.findByEmail`
oracle (lower-casing and the `is_active` filter happen inside it);
`comparePassword` is the bcrypt oracle applied to the submitted password and
the stored hash.  The `updateLastLogin` database write has no effect on the
data modelled here and is omitted. -/
def loginHandler (findByEmail : String → Option UserRecord)
    (comparePassword : String → Option String → Bool)
    (secret : String) (now : Nat)
    (email password : Option String)
    (refreshTokens : List RefreshTokenRecord) :
    ApiResponse × List RefreshTokenRecord :=
  let validation := validateLogin email password
  if !validation.1 then
    ({ status := 400, success := false, message := "Validation failed"
       errors := validation.2 }, refreshTokens)
  else
    match findByEmail (email.getD "") with
    | none =>
        ({ status := 401, success := false
           message := "Invalid email or password" }, refreshTokens)
    | some user =>
        if !comparePassword (password.getD "") user.password then
          ({ status := 401, success := false
             message := "Invalid email or password" }, refreshTokens)
        else
          let result := generateTokens user.id user.email secret now refreshTokens
          ({ status := 200, success := true, message := "Login successful"
             user := some (sanitizeUser user)
             accessToken := some result.1.1
             refreshToken := some result.1.2 }, result.2)

/-- The `POST /register` handler.  `hashPassword` is the bcrypt hashing
oracle; `createUser` is `UserModel.create` (insert then re-fetch by id,
applied to email, hashed password, name, phone). -/
def registerHandler (findByEmail : String → Option UserRecord)
    (hashPassword : String → String)
    (createUser : String → String → String → Option String → UserRecord)
    (secret : String) (now : Nat)
    (email password name phone : Option String)
    (refreshTokens : List RefreshTokenRecord) :
    ApiResponse × List RefreshTokenRecord :=
  let validation := validateRegistration email password name
  if !validation.1 then
    ({ status := 400, success := false, message := "Validation failed"
       errors := validation.2 }, refreshTokens)
  else
    match findByEmail (email.getD "") with
    | some _ =>
        ({ status := 409, success := false
           message := "User with this email already exists" }, refreshTokens)
    | none =>
        let hashedPassword := hashPassword (password.getD "")
        let newUser := createUser (email.getD "") hashedPassword (name.getD "") phone
        let result := generateTokens newUser.id newUser.email secret now refreshTokens
        ({ status := 201, success := true, message := "User registered successfully"
           user := some (sanitizeUser newUser)
           accessToken := some result.1.1
           refreshToken := some result.1.2 }, result.2)

/-- The `GET /me` handler behind the `authenticateToken` middleware:
bearer-token extraction, `jwt.verify`, the `type === 'access'` check, then
`UserModel.findById` and `sanitizeUser`.  The success response has no
`message` field; modelled as the empty string. -/
def meHandler (findById : Nat → Option UserRecord) (secret : String) (now : Nat)
    (accessToken : Option Token) : ApiResponse :=
  match accessToken with
  | none => { status := 401, success := false, message := "Access token required" }
  | some token =>
      match jwtVerify token secret now with
      | .error _ =>
          { status := 403, success := false, message := "Invalid or expired token" }
      | .ok decoded =>
          if decoded.type ≠ .access then
            { status := 403, success := false, message := "Invalid token type" }
          else
            match findById decoded.userId with
            | none => { status := 404, success := false, message := "User not found" }
            | some user =>
                { status := 200, success := true, message := ""
                  user := some (sanitizeUser user) }

/-- The `POST /refresh` handler: require the body field, then
`AuthService.verifyRefreshToken` (a rejection is surfaced as 403 with the
error's message), then `UserModel.findById`, then a fresh access token via
`AuthService.generateAccessToken` — the refresh token record is left as
`verifyRefreshToken` left it. -/
def refreshHandler (findById : Nat → Option UserRecord) (secret : String) (now : Nat)
    (refreshToken : Option Token) (refreshTokens : List RefreshTokenRecord) :
    ApiResponse × List RefreshTokenRecord :=
  match refreshToken with
  | none =>
      ({ status := 401, success := false, message := "Refresh token required" },
        refreshTokens)
  | some tok =>
      match verifyRefreshToken tok secret now refreshTokens with
      | (.error e, store) =>
          ({ status := 403, success := false, message := authErrorMessage e }, store)
      | (.ok decoded, store) =>
          match findById decoded.userId with
          | none =>
              ({ status := 404, success := false, message := "User not found" }, store)
          | some user =>
              ({ status := 200, success := true
                 message := "Access token refreshed successfully"
                 accessToken := some (generateAccessToken user.id user.email secret now) },
                store)

/-- The `POST /logout` handler: best-effort `removeRefreshToken` when a body
token is present; always a 200 success. -/
def logoutHandler (refreshToken : Option Token)
    (refreshTokens : List RefreshTokenRecord) :
    ApiResponse × List RefreshTokenRecord :=
  match refreshToken with
  | none =>
      ({ status := 200, success := true, message := "Logged out successfully" },
        refreshTokens)
  | some tok =>
      ({ status := 200, success := true, message := "Logged out successfully" },
        (removeRefreshToken refreshTokens tok).2)

/-- The `POST /logout-all` handler behind `authenticateToken`:
`removeAllUserRefreshTokens(req.user.userId)` and a count-bearing message. -/
def logoutAllHandler (secret : String) (now : Nat) (accessToken : Option Token)
    (refreshTokens : List RefreshTokenRecord) :
    ApiResponse × List RefreshTokenRecord :=
  match accessToken with
  | none =>
      ({ status := 401, success := false, message := "Access token required" },
        refreshTokens)
  | some token =>
      match jwtVerify token secret now with
      | .error _ =>
          ({ status := 403, success := false, message := "Invalid or expired token" },
            refreshTokens)
      | .ok decoded =>
          if decoded.type ≠ .access then
            ({ status := 403, success := false, message := "Invalid token type" },
              refreshTokens)
          else
            let result := removeAllUserRefreshTokens refreshTokens decoded.userId
            ({ status := 200, success := true
               message := "Logged out from " ++ toString result.1 ++ " devices successfully" },
              result.2)

/-- The spec's record invariant: every stored record satisfies
`expiresAt = createdAt + 7 days` (in milliseconds). -/
def StoreInv (store : List RefreshTokenRecord) : Prop :=
  ∀ r ∈ store, r.expiresAt = r.createdAt + 7 * 24 * 60 * 60 * 1000

/-- Well-formedness of a store state: each record's `userId` column agrees
with the `userId` embedded in its token.  Every record the program inserts
is built this way by `generateTokens`, and removals preserve it. -/
def StoreWF (store : List RefreshTokenRecord) : Prop :=
  ∀ r ∈ store, r.userId = r.token.userId

theorem removeRefreshToken_nil (t : Token) : removeRefreshToken [] t = (false, []) := rfl

theorem removeRefreshToken_cons (r : RefreshTokenRecord) (store : List RefreshTokenRecord)
    (t : Token) :
    removeRefreshToken (r :: store) t =
      if r.token = t then (true, store)
      else ((removeRefreshToken store t).1, r :: (removeRefreshToken store t).2) := by
  unfold removeRefreshToken
  by_cases h : r.token = t
  · simp [List.findIdx?_cons, h]
  · simp only [List.findIdx?_cons, beq_iff_eq, h, if_false, List.findIdx?_succ]
    cases hfind : List.findIdx? (fun rt => rt.token == t) store 0 with
    | none => simp [h]
    | some i => simp [h, List.eraseIdx]

theorem removeRefreshToken_of_forall_ne (store : List RefreshTokenRecord) (t : Token)
    (h : ∀ r ∈ store, r.token ≠ t) : removeRefreshToken store t = (false, store) := by
  induction store with
  | nil => rfl
  | cons r rest ih =>
      have hr : r.token ≠ t := h r (List.mem_cons_self r rest)
      have hrest := ih (fun x hx => h x (List.mem_cons_of_mem r hx))
      rw [removeRefreshToken_cons, if_neg hr, hrest]

theorem removeRefreshToken_of_exists (store : List RefreshTokenRecord) (t : Token)
    (h : ∃ r ∈ store, r.token = t) :
    ∃ l1 r l2, store = l1 ++ r :: l2 ∧ r.token = t ∧ (∀ x ∈ l1, x.token ≠ t) ∧
      removeRefreshToken store t = (true, l1 ++ l2) := by
  induction store with
  | nil => simp at h
  | cons a rest ih =>
      by_cases ha : a.token = t
      · refine ⟨[], a, rest, by simp, ha, by simp, ?_⟩
        rw [removeRefreshToken_cons, if_pos ha]
        rfl
      · obtain ⟨r, hr, hrt⟩ := h
        rcases List.mem_cons.mp hr with heq | hr2
        · exact absurd hrt (heq ▸ ha)
        · obtain ⟨l1, r2, l2, hsplit, hrt2, hl1, hrem⟩ := ih ⟨r, hr2, hrt⟩
          refine ⟨a :: l1, r2, l2, by simp [hsplit], hrt2, ?_, ?_⟩
          · intro x hx
            rcases List.mem_cons.mp hx with hxa | hx2
            · exact hxa ▸ ha
            · exact hl1 x hx2
          · rw [removeRefreshToken_cons, if_neg ha, hrem]
            rfl

theorem mem_removeRefreshToken_of_ne (store : List RefreshTokenRecord) (t : Token)
    (x : RefreshTokenRecord) (hx : x ∈ store) (hne : x.token ≠ t) :
    x ∈ (removeRefreshToken store t).2 := by
  induction store with
  | nil => simp at hx
  | cons r rest ih =>
      rw [removeRefreshToken_cons]
      by_cases hr : r.token = t
      · rw [if_pos hr]
        rcases List.mem_cons.mp hx with hxa | hx2
        · exact absurd (hxa ▸ hne) (fun c => c hr)
        · exact hx2
      · rw [if_neg hr]
        rcases List.mem_cons.mp hx with hxa | hx2
        · exact hxa ▸ List.mem_cons_self r _
        · exact List.mem_cons_of_mem r (ih hx2)

theorem mem_of_mem_removeRefreshToken (store : List RefreshTokenRecord) (t : Token)
    (x : RefreshTokenRecord) (hx : x ∈ (removeRefreshToken store t).2) : x ∈ store := by
  induction store with
  | nil =>
      rw [removeRefreshToken_nil] at hx
      exact hx
  | cons r rest ih =>
      rw [removeRefreshToken_cons] at hx
      by_cases hr : r.token = t
      · rw [if_pos hr] at hx
        exact List.mem_cons_of_mem r hx
      · rw [if_neg hr] at hx
        rcases List.mem_cons.mp hx with hxa | hx2
        · exact hxa ▸ List.mem_cons_self r _
        · exact List.mem_cons_of_mem r (ih hx2)

/-- C10: `AuthService.removeRefreshToken` deletes at most one record.  When
some record carries the given token string it removes exactly the first such
record and returns `true` — the store drops by exactly one element and every
other record is kept, in value and relative order; when no record matches it
returns `false` and the store is unchanged. -/
theorem removeRefreshToken_spec (store : List RefreshTokenRecord) (t : Token) :
    ((∀ r ∈ store, r.token ≠ t) → removeRefreshToken store t = (false, store)) ∧
    ((∃ r ∈ store, r.token = t) →
      ∃ l1 r l2, store = l1 ++ r :: l2 ∧ r.token = t ∧ (∀ x ∈ l1, x.token ≠ t) ∧
        removeRefreshToken store t = (true, l1 ++ l2) ∧
        (removeRefreshToken store t).2.length + 1 = store.length) := by
  refine ⟨removeRefreshToken_of_forall_ne store t, fun h => ?_⟩
  obtain ⟨l1, r, l2, hsplit, hrt, hl1, hrem⟩ := removeRefreshToken_of_exists store t h
  refine ⟨l1, r, l2, hsplit, hrt, hl1, hrem, ?_⟩
  rw [hrem, hsplit]
  simp only [List.length_append, List.length_cons]
  omega

/-- Witness for C10 at a concrete store and token. -/
theorem removeRefreshToken_spec_witness :
    removeRefreshToken [⟨generateRefreshToken 1 "a" "s" 0, 1, 0, 604800000⟩]
        (generateRefreshToken 2 "b" "s" 0) =
      (false, [⟨generateRefreshToken 1 "a" "s" 0, 1, 0, 604800000⟩]) :=
  (removeRefreshToken_spec [⟨generateRefreshToken 1 "a" "s" 0, 1, 0, 604800000⟩]
    (generateRefreshToken 2 "b" "s" 0)).1 (by decide)

/-- C9: the `InvalidOrExpiredToken` and `TokenNotFound` rejections of
`AuthService.verifyRefreshToken` leave the `refreshTokens` array exactly as
it was; whenever the call changes the array at all, the outcome is the
`TokenExpired` rejection and the new array is precisely the result of
`removeRefreshToken` on that token. -/
theorem verifyRefreshToken_frame (t : Token) (secret : String) (now : Nat)
    (store : List RefreshTokenRecord) :
    ((verifyRefreshToken t secret now store).1 = .error .invalidOrExpiredToken →
      (verifyRefreshToken t secret now store).2 = store) ∧
    ((verifyRefreshToken t secret now store).1 = .error .tokenNotFound →
      (verifyRefreshToken t secret now store).2 = store) ∧
    ((verifyRefreshToken t secret now store).2 ≠ store →
      (verifyRefreshToken t secret now store).1 = .error .tokenExpired ∧
      (verifyRefreshToken t secret now store).2 = (removeRefreshToken store t).2) := by
  unfold verifyRefreshToken
  cases hj : jwtVerify t secret now with
  | error e => simp
  | ok decoded =>
      cases hf : store.find? (fun rt => rt.token == t) with
      | none => simp
      | some stored =>
          by_cases hexp : stored.expiresAt < now
          · simp [hexp]
          · by_cases hty : decoded.type = TokenType.refresh
            · simp [hexp, hty]
            · simp [hexp, hty]

/-- Witness for C9 at a concrete rejected call. -/
theorem verifyRefreshToken_frame_witness :
    (verifyRefreshToken (generateRefreshToken 1 "a" "s" 0) "s" 5 []).2 = [] :=
  (verifyRefreshToken_frame (generateRefreshToken 1 "a" "s" 0) "s" 5 []).2.1 (by decide)

theorem mem_foldl_remove (ts : List RefreshTokenRecord) (store : List RefreshTokenRecord)
    (x : RefreshTokenRecord)
    (hx : x ∈ ts.foldl (fun s t => (removeRefreshToken s t.token).2) store) : x ∈ store := by
  induction ts generalizing store with
  | nil => exact hx
  | cons t ts ih =>
      simp only [List.foldl_cons] at hx
      exact mem_of_mem_removeRefreshToken store t.token x
        (ih ((removeRefreshToken store t.token).2) hx)

theorem verifyRefreshToken_store_eq_or (t : Token) (secret : String) (now : Nat)
    (store : List RefreshTokenRecord) :
    (verifyRefreshToken t secret now store).2 = store ∨
    (verifyRefreshToken t secret now store).2 = (removeRefreshToken store t).2 := by
  unfold verifyRefreshToken
  cases jwtVerify t secret now with
  | error e => exact Or.inl rfl
  | ok decoded =>
      cases store.find? (fun rt => rt.token == t) with
      | none => exact Or.inl rfl
      | some stored =>
          by_cases hexp : stored.expiresAt < now
          · simp [hexp]
          · by_cases hty : decoded.type = TokenType.refresh <;> simp [hexp, hty]

/-- C2: every record `generateTokens` pushes satisfies
`expiresAt = createdAt + 7 days`, and the store-wide invariant is preserved
by issuance, by `verifyRefreshToken` (whose only mutation is a removal), and
by the logout / logout-all removals. -/
theorem storeInv_preserved (store : List RefreshTokenRecord) (h : StoreInv store) :
    (∀ userId email secret now,
      StoreInv (generateTokens userId email secret now store).2) ∧
    (∀ t secret now, StoreInv (verifyRefreshToken t secret now store).2) ∧
    (∀ t, StoreInv (removeRefreshToken store t).2) ∧
    (∀ userId, StoreInv (removeAllUserRefreshTokens store userId).2) := by
  have hrem : ∀ t, StoreInv (removeRefreshToken store t).2 := by
    intro t r hr
    exact h r (mem_of_mem_removeRefreshToken store t r hr)
  refine ⟨?_, ?_, hrem, ?_⟩
  · intro userId email secret now r hr
    simp only [generateTokens, List.mem_append, List.mem_singleton] at hr
    rcases hr with hr | hr
    · exact h r hr
    · subst hr
      rfl
  · intro t secret now
    rcases verifyRefreshToken_store_eq_or t secret now store with heq | heq
    · rw [heq]
      exact h
    · rw [heq]
      exact hrem t
  · intro userId r hr
    simp only [removeAllUserRefreshTokens] at hr
    exact h r (mem_foldl_remove _ store r hr)

/-- Witness for C2: issuing into the empty store yields an invariant store. -/
theorem storeInv_preserved_witness : StoreInv ((generateTokens 1 "a" "s" 0 []).2) :=
  (storeInv_preserved [] (by intro r hr; cases hr)).1 1 "a" "s" 0

theorem removeRefreshToken_append_singleton (store : List RefreshTokenRecord)
    (rec : RefreshTokenRecord) (hfresh : ∀ r ∈ store, r.token ≠ rec.token) :
    removeRefreshToken (store ++ [rec]) rec.token = (true, store) := by
  induction store with
  | nil =>
      rw [List.nil_append, removeRefreshToken_cons, if_pos rfl]
  | cons a rest ih =>
      have ha : a.token ≠ rec.token := hfresh a (List.mem_cons_self a rest)
      have hrest := ih (fun x hx => hfresh x (List.mem_cons_of_mem a hx))
      rw [List.cons_append, removeRefreshToken_cons, if_neg ha, hrest]

theorem verifyRefreshToken_ok_mem (t : Token) (secret : String) (now : Nat)
    (st : List RefreshTokenRecord) (decoded : Token)
    (hok : (verifyRefreshToken t secret now st).1 = .ok decoded) :
    ∃ r ∈ st, r.token = t := by
  unfold verifyRefreshToken at hok
  cases hj : jwtVerify t secret now with
  | error e => simp [hj] at hok
  | ok dec =>
      rw [hj] at hok
      cases hf : st.find? (fun rt => rt.token == t) with
      | none => simp [hf] at hok
      | some stored =>
          refine ⟨stored, List.mem_of_find?_eq_some hf, ?_⟩
          simpa using List.find?_some hf

/-- C1: after `generateTokens` issues a refresh token into a store holding no
copy of that token string, and logout removes it, a refresh attempt with the
same token string is rejected `TokenNotFound` and the handler issues no
access token, even though the signature still verifies and expiry has not
passed; in general a verification success requires store membership. -/
theorem revocation_effective (userId : Nat) (email secret : String) (now later : Nat)
    (store0 : List RefreshTokenRecord) (findById : Nat → Option UserRecord)
    (hfresh : ∀ r ∈ store0, r.token ≠ generateRefreshToken userId email secret now)
    (hlive : later < now + 7 * 24 * 60 * 60 * 1000) :
    jwtVerify (generateRefreshToken userId email secret now) secret later
        = .ok (generateRefreshToken userId email secret now) ∧
    (removeRefreshToken (generateTokens userId email secret now store0).2
        (generateRefreshToken userId email secret now)).2 = store0 ∧
    (verifyRefreshToken (generateRefreshToken userId email secret now) secret later
        store0).1 = .error .tokenNotFound ∧
    (refreshHandler findById secret later
        (some (generateRefreshToken userId email secret now)) store0).1.status = 403 ∧
    (refreshHandler findById secret later
        (some (generateRefreshToken userId email secret now)) store0).1.accessToken
        = none ∧
    (∀ t st decoded, (verifyRefreshToken t secret later st).1 = .ok decoded →
      ∃ r ∈ st, r.token = t) := by
  have hjwt : jwtVerify (generateRefreshToken userId email secret now) secret later
      = .ok (generateRefreshToken userId email secret now) := by
    unfold jwtVerify generateRefreshToken
    rw [if_neg (by simp), if_neg (by simp; omega)]
  have hlogout := removeRefreshToken_append_singleton store0
    ⟨generateRefreshToken userId email secret now, userId, now,
      now + 7 * 24 * 60 * 60 * 1000⟩ hfresh
  have hnone : store0.find?
      (fun rt => rt.token == generateRefreshToken userId email secret now) = none := by
    rw [List.find?_eq_none]
    intro x hx
    simpa using hfresh x hx
  have hverify : verifyRefreshToken (generateRefreshToken userId email secret now)
      secret later store0 = (.error .tokenNotFound, store0) := by
    unfold verifyRefreshToken
    rw [hjwt]
    simp only [hnone]
  refine ⟨hjwt, congrArg Prod.snd hlogout, ?_, ?_, ?_,
    fun t st decoded hok => verifyRefreshToken_ok_mem t secret later st decoded hok⟩
  · rw [hverify]
  · simp only [refreshHandler, hverify]
  · simp only [refreshHandler, hverify]

/-- Witness for C1 at a concrete identity and an empty initial store. -/
theorem revocation_effective_witness :
    (verifyRefreshToken (generateRefreshToken 1 "a" "s" 0) "s" 5 []).1
      = .error .tokenNotFound :=
  (revocation_effective 1 "a" "s" 0 5 [] (fun _ => none)
    (by simp) (by decide)).2.2.1

/-- C3 counterexample: a correctly signed, unexpired access-kind token
against the empty store is rejected `TokenNotFound` by
`verifyRefreshToken`, not `InvalidOrExpiredToken`: the kind check does not
happen during signature verification, and the store is consulted first. -/
theorem kind_check_counterexample :
    (verifyRefreshToken (generateAccessToken 1 "a" "s" 0) "s" 5 []).1
        = .error .tokenNotFound ∧
    ¬ (verifyRefreshToken (generateAccessToken 1 "a" "s" 0) "s" 5 []).1
        = .error .invalidOrExpiredToken := by
  decide

/-- C3 amended: for a correctly signed, unexpired token whose kind is not
`Refresh`, `verifyRefreshToken` never succeeds, but the kind check comes
after the store checks: the rejection is `TokenNotFound` when the token is
absent from the store, `TokenExpired` when the first matching record is
stale, and only otherwise `InvalidTokenType`. -/
theorem kind_check_after_store (t : Token) (secret : String) (now : Nat)
    (store : List RefreshTokenRecord)
    (hkind : t.type ≠ .refresh) (hsec : t.secret = secret) (hexp : now < t.exp) :
    (verifyRefreshToken t secret now store).1 =
      (match store.find? (fun rt => rt.token == t) with
       | none => .error .tokenNotFound
       | some stored =>
           if stored.expiresAt < now then .error .tokenExpired
           else .error .invalidTokenType) := by
  have hjwt : jwtVerify t secret now = .ok t := by
    unfold jwtVerify
    rw [if_neg (by simp [hsec]), if_neg (by omega)]
  unfold verifyRefreshToken
  rw [hjwt]
  cases store.find? (fun rt => rt.token == t) with
  | none => rfl
  | some stored =>
      by_cases hse : stored.expiresAt < now
      · simp [hse]
      · simp [hse, hkind]

/-- Witness for C3 (amended) at a live stored access token:
the rejection is `InvalidTokenType`, past the store checks. -/
theorem kind_check_after_store_witness :
    (verifyRefreshToken (generateAccessToken 1 "a" "s" 0) "s" 5
        [⟨generateAccessToken 1 "a" "s" 0, 1, 0, 604800000⟩]).1
      = .error .invalidTokenType :=
  (kind_check_after_store (generateAccessToken 1 "a" "s" 0) "s" 5
    [⟨generateAccessToken 1 "a" "s" 0, 1, 0, 604800000⟩]
    (by decide) (by decide) (by decide)).trans (by decide)

/-- C4: a token that passes signature verification and whose first matching
store record is stale is rejected `TokenExpired`, with exactly the
`removeRefreshToken` removal applied to the store; every record carrying a
different token string — stale or not — survives the call untouched. -/
theorem lazy_expiry (t : Token) (secret : String) (now : Nat)
    (store : List RefreshTokenRecord) (stored : RefreshTokenRecord)
    (hsec : t.secret = secret) (hexp : now < t.exp)
    (hfind : store.find? (fun rt => rt.token == t) = some stored)
    (hstale : stored.expiresAt < now) :
    (verifyRefreshToken t secret now store).1 = .error .tokenExpired ∧
    (verifyRefreshToken t secret now store).2 = (removeRefreshToken store t).2 ∧
    (∀ x ∈ store, x.token ≠ t → x ∈ (verifyRefreshToken t secret now store).2) := by
  have hjwt : jwtVerify t secret now = .ok t := by
    unfold jwtVerify
    rw [if_neg (by simp [hsec]), if_neg (by omega)]
  have hres : verifyRefreshToken t secret now store
      = (.error .tokenExpired, (removeRefreshToken store t).2) := by
    unfold verifyRefreshToken
    rw [hjwt, hfind]
    simp [hstale]
  refine ⟨by rw [hres], by rw [hres], ?_⟩
  intro x hx hne
  rw [hres]
  exact mem_removeRefreshToken_of_ne store t x hx hne

theorem jwtVerify_refresh_ok (userId : Nat) (email secret : String) (now later : Nat)
    (hlive : later < now + 7 * 24 * 60 * 60 * 1000) :
    jwtVerify (generateRefreshToken userId email secret now) secret later
      = .ok (generateRefreshToken userId email secret now) := by
  unfold jwtVerify generateRefreshToken
  rw [if_neg (by simp), if_neg (by simp; omega)]

theorem find?_append_singleton (store : List RefreshTokenRecord)
    (rec : RefreshTokenRecord) (hfresh : ∀ r ∈ store, r.token ≠ rec.token) :
    (store ++ [rec]).find? (fun rt => rt.token == rec.token) = some rec := by
  induction store with
  | nil => simp
  | cons a rest ih =>
      have ha : a.token ≠ rec.token := hfresh a (List.mem_cons_self a rest)
      rw [List.cons_append, List.find?_cons_of_neg _ (by simpa using ha)]
      exact ih (fun x hx => hfresh x (List.mem_cons_of_mem a hx))

/-- C5: immediately after issuance, `POST /refresh` with the returned
refresh token succeeds, returns a fresh access token carrying the same
identity, and leaves the refresh-token store exactly as it was — the record
is neither removed nor replaced, so the very same call keeps succeeding on
the store it returns. -/
theorem refresh_round_trip (userId : Nat) (email secret : String) (now later : Nat)
    (store0 : List RefreshTokenRecord) (findById : Nat → Option UserRecord)
    (u : UserRecord)
    (hfresh : ∀ r ∈ store0, r.token ≠ generateRefreshToken userId email secret now)
    (hlive : later < now + 7 * 24 * 60 * 60 * 1000)
    (huser : findById userId = some u) (hid : u.id = userId) (hemail : u.email = email) :
    refreshHandler findById secret later
        (some (generateRefreshToken userId email secret now))
        (generateTokens userId email secret now store0).2
      = ({ status := 200, success := true
           message := "Access token refreshed successfully"
           accessToken := some (generateAccessToken userId email secret later) },
         (generateTokens userId email secret now store0).2) ∧
    (generateAccessToken userId email secret later).userId = userId ∧
    (generateAccessToken userId email secret later).email = email := by
  have hverify : verifyRefreshToken (generateRefreshToken userId email secret now)
      secret later (generateTokens userId email secret now store0).2
      = (.ok (generateRefreshToken userId email secret now),
         (generateTokens userId email secret now store0).2) := by
    have hfind : ((generateTokens userId email secret now store0).2).find?
        (fun rt => rt.token == generateRefreshToken userId email secret now)
        = some ⟨generateRefreshToken userId email secret now, userId, now,
            now + 7 * 24 * 60 * 60 * 1000⟩ :=
      find?_append_singleton store0
        ⟨generateRefreshToken userId email secret now, userId, now,
          now + 7 * 24 * 60 * 60 * 1000⟩ hfresh
    unfold verifyRefreshToken
    rw [jwtVerify_refresh_ok userId email secret now later hlive]
    simp only [hfind]
    rw [if_neg (by simp; omega)]
    simp [generateRefreshToken]
  refine ⟨?_, rfl, rfl⟩
  unfold refreshHandler
  simp only [hverify]
  have hsub : (generateRefreshToken userId email secret now).userId = userId := rfl
  rw [hsub]
  simp only [huser]
  rw [hid, hemail]

/-- Witness for C5 at a concrete identity, empty initial store and a user
table holding that identity. -/
theorem refresh_round_trip_witness :
    refreshHandler (fun _ => some ⟨1, "a", none, "n", none⟩) "s" 5
        (some (generateRefreshToken 1 "a" "s" 0))
        (generateTokens 1 "a" "s" 0 []).2
      = ({ status := 200, success := true
           message := "Access token refreshed successfully"
           accessToken := some (generateAccessToken 1 "a" "s" 5) },
         (generateTokens 1 "a" "s" 0 []).2) :=
  (refresh_round_trip 1 "a" "s" 0 5 [] (fun _ => some ⟨1, "a", none, "n", none⟩)
    ⟨1, "a", none, "n", none⟩ (by simp) (by decide) rfl rfl rfl).1

theorem foldl_remove_cons_of_ne (ts : List RefreshTokenRecord) (r : RefreshTokenRecord)
    (store : List RefreshTokenRecord) (h : ∀ t ∈ ts, r.token ≠ t.token) :
    ts.foldl (fun s t => (removeRefreshToken s t.token).2) (r :: store)
      = r :: ts.foldl (fun s t => (removeRefreshToken s t.token).2) store := by
  induction ts generalizing store with
  | nil => rfl
  | cons t ts ih =>
      simp only [List.foldl_cons]
      rw [removeRefreshToken_cons, if_neg (h t (List.mem_cons_self t ts))]
      exact ih ((removeRefreshToken store t.token).2)
        (fun x hx => h x (List.mem_cons_of_mem t hx))

theorem foldl_remove_filter (u : Nat) (store : List RefreshTokenRecord)
    (hwf : ∀ r ∈ store, r.userId = r.token.userId) :
    (store.filter (fun rt => rt.userId == u)).foldl
        (fun s t => (removeRefreshToken s t.token).2) store
      = store.filter (fun rt => !(rt.userId == u)) := by
  induction store with
  | nil => rfl
  | cons r rest ih =>
      have hwfr := hwf r (List.mem_cons_self r rest)
      have hwfrest : ∀ x ∈ rest, x.userId = x.token.userId :=
        fun x hx => hwf x (List.mem_cons_of_mem r hx)
      by_cases hr : r.userId = u
      · have h1 : (r :: rest).filter (fun rt => rt.userId == u)
            = r :: rest.filter (fun rt => rt.userId == u) := by
          simp [List.filter_cons, hr]
        have h2 : (r :: rest).filter (fun rt => !(rt.userId == u))
            = rest.filter (fun rt => !(rt.userId == u)) := by
          simp [List.filter_cons, hr]
        rw [h1, h2, List.foldl_cons, removeRefreshToken_cons, if_pos rfl]
        exact ih hwfrest
      · have h1 : (r :: rest).filter (fun rt => rt.userId == u)
            = rest.filter (fun rt => rt.userId == u) := by
          simp [List.filter_cons, hr]
        have h2 : (r :: rest).filter (fun rt => !(rt.userId == u))
            = r :: rest.filter (fun rt => !(rt.userId == u)) := by
          simp [List.filter_cons, hr]
        have hne : ∀ t ∈ rest.filter (fun rt => rt.userId == u), r.token ≠ t.token := by
          intro t ht heq
          have hmem := (List.mem_filter.mp ht).1
          have htu : t.userId = u := by
            have := (List.mem_filter.mp ht).2
            simpa using this
          exact hr (by rw [hwfr, heq, ← hwfrest t hmem, htu])
        rw [h1, h2, foldl_remove_cons_of_ne _ r rest hne, ih hwfrest]

/-- C6: `removeAllUserRefreshTokens` removes exactly the given user's
records — the resulting store is the original one filtered down to the other
users' records, values and order untouched — and returns how many records
that user had in the store at call time.  The hypothesis (each record's
`userId` column agrees with the subject embedded in its token) holds of
every store the service itself builds, since `generateTokens` writes the
token's own `userId` into the record. -/
theorem logoutAll_spec (store : List RefreshTokenRecord) (userId : Nat)
    (hwf : StoreWF store) :
    (removeAllUserRefreshTokens store userId).1
        = (getUserRefreshTokens store userId).length ∧
    (removeAllUserRefreshTokens store userId).2
        = store.filter (fun rt => !(rt.userId == userId)) :=
  ⟨rfl, foldl_remove_filter userId store hwf⟩

/-- Witness for C6 on a store holding one record of user 1 and one of
user 2. -/
theorem logoutAll_spec_witness :
    (removeAllUserRefreshTokens
        [⟨generateRefreshToken 1 "a" "s" 0, 1, 0, 604800000⟩,
         ⟨generateRefreshToken 2 "b" "s" 0, 2, 0, 604800000⟩] 1).2
      = [⟨generateRefreshToken 2 "b" "s" 0, 2, 0, 604800000⟩] := by
  have h := logoutAll_spec
    [⟨generateRefreshToken 1 "a" "s" 0, 1, 0, 604800000⟩,
     ⟨generateRefreshToken 2 "b" "s" 0, 2, 0, 604800000⟩] 1
    (by intro r hr
        rcases List.mem_cons.mp hr with h1 | h1
        · subst h1; rfl
        · rcases List.mem_cons.mp h1 with h2 | h2
          · subst h2; rfl
          · cases h2)
  exact h.2.trans (by decide)

/-- Witness for C4 at a concrete stale record. -/
theorem lazy_expiry_witness :
    (verifyRefreshToken (generateRefreshToken 1 "a" "s" 0) "s" 5
        [⟨generateRefreshToken 1 "a" "s" 0, 1, 0, 3⟩]).1
      = .error .tokenExpired := by
  have h := lazy_expiry (generateRefreshToken 1 "a" "s" 0) "s" 5
    [⟨generateRefreshToken 1 "a" "s" 0, 1, 0, 3⟩]
    ⟨generateRefreshToken 1 "a" "s" 0, 1, 0, 3⟩
    (by decide) (by decide) (by decide) (by decide)
  exact h.1

theorem loginHandler_user_sanitized (findByEmail : String → Option UserRecord)
    (comparePassword : String → Option String → Bool) (secret : String) (now : Nat)
    (email password : Option String) (store : List RefreshTokenRecord)
    (u : UserRecord)
    (h : (loginHandler findByEmail comparePassword secret now email password store).1.user
        = some u) :
    u.password = none := by
  simp only [loginHandler] at h
  split at h
  · simp at h
  · split at h
    · simp at h
    · split at h
      · simp at h
      · simp only [Option.some.injEq] at h
        rw [← h]
        rfl

theorem registerHandler_user_sanitized (findByEmail : String → Option UserRecord)
    (hashPassword : String → String)
    (createUser : String → String → String → Option String → UserRecord)
    (secret : String) (now : Nat)
    (email password name phone : Option String) (store : List RefreshTokenRecord)
    (u : UserRecord)
    (h : (registerHandler findByEmail hashPassword createUser secret now
        email password name phone store).1.user = some u) :
    u.password = none := by
  simp only [registerHandler] at h
  split at h
  · simp at h
  · split at h
    · simp at h
    · simp only [Option.some.injEq] at h
      rw [← h]
      rfl

theorem meHandler_user_sanitized (findById : Nat → Option UserRecord)
    (secret : String) (now : Nat) (accessToken : Option Token) (u : UserRecord)
    (h : (meHandler findById secret now accessToken).user = some u) :
    u.password = none := by
  simp only [meHandler] at h
  split at h
  · simp at h
  · split at h
    · simp at h
    · split at h
      · simp at h
      · split at h
        · simp at h
        · simp only [Option.some.injEq] at h
          rw [← h]
          rfl

/-- C7: any user object carried by a response of the register, login or
profile-fetch handler went through `sanitizeUser`: its password field is
absent from the response. -/
theorem password_never_exposed
    (findByEmailL : String → Option UserRecord)
    (comparePassword : String → Option String → Bool)
    (findByEmailR : String → Option UserRecord)
    (hashPassword : String → String)
    (createUser : String → String → String → Option String → UserRecord)
    (findById : Nat → Option UserRecord)
    (secret : String) (now : Nat)
    (emailL passwordL emailR passwordR nameR phoneR : Option String)
    (accessToken : Option Token)
    (storeL storeR : List RefreshTokenRecord)
    (uL uR uM : UserRecord)
    (hL : (loginHandler findByEmailL comparePassword secret now
        emailL passwordL storeL).1.user = some uL)
    (hR : (registerHandler findByEmailR hashPassword createUser secret now
        emailR passwordR nameR phoneR storeR).1.user = some uR)
    (hM : (meHandler findById secret now accessToken).user = some uM) :
    uL.password = none ∧ uR.password = none ∧ uM.password = none :=
  ⟨loginHandler_user_sanitized findByEmailL comparePassword secret now
      emailL passwordL storeL uL hL,
   registerHandler_user_sanitized findByEmailR hashPassword createUser secret now
      emailR passwordR nameR phoneR storeR uR hR,
   meHandler_user_sanitized findById secret now accessToken uM hM⟩

/-- Witness for C7: a successful login, registration and profile fetch, each
carrying a user object, none carrying a password. -/
theorem password_never_exposed_witness :
    (⟨1, "e", none, "n", none⟩ : UserRecord).password = none ∧
    (⟨1, "a@b.c", none, "A", none⟩ : UserRecord).password = none ∧
    (⟨1, "e", none, "n", none⟩ : UserRecord).password = none :=
  password_never_exposed
    (fun _ => some ⟨1, "e", some "h", "n", none⟩) (fun _ _ => true)
    (fun _ => none) (fun s => s) (fun e p n ph => ⟨1, e, some p, n, ph⟩)
    (fun _ => some ⟨1, "e", none, "n", none⟩)
    "s" 5
    (some "x@y.z") (some "x") (some "a@b.c") (some "secret1") (some "A") none
    (some (generateAccessToken 1 "e" "s" 0))
    [] []
    ⟨1, "e", none, "n", none⟩ ⟨1, "a@b.c", none, "A", none⟩ ⟨1, "e", none, "n", none⟩
    (by decide) (by decide) (by decide)

/-- C8: when login-input validation passes, the response produced on a
user-lookup miss is identical — the same 401 `InvalidCredentials` response
with the same message — to the one produced when the user exists but the
password check fails, across any store, clock and secret. -/
theorem login_indistinguishable
    (findByEmail1 findByEmail2 : String → Option UserRecord)
    (cmp1 cmp2 : String → Option String → Bool)
    (secret1 secret2 : String) (now1 now2 : Nat)
    (email password : Option String)
    (store1 store2 : List RefreshTokenRecord) (u : UserRecord)
    (hvalid : (validateLogin email password).1 = true)
    (hmiss : findByEmail1 (email.getD "") = none)
    (hhit : findByEmail2 (email.getD "") = some u)
    (hbad : cmp2 (password.getD "") u.password = false) :
    (loginHandler findByEmail1 cmp1 secret1 now1 email password store1).1 =
      (loginHandler findByEmail2 cmp2 secret2 now2 email password store2).1 ∧
    (loginHandler findByEmail1 cmp1 secret1 now1 email password store1).1.status = 401 ∧
    (loginHandler findByEmail1 cmp1 secret1 now1 email password store1).1.message
      = "Invalid email or password" := by
  have h1 : (loginHandler findByEmail1 cmp1 secret1 now1 email password store1).1
      = { status := 401, success := false, message := "Invalid email or password" } := by
    simp only [loginHandler, hvalid, Bool.not_true, Bool.false_eq_true, if_false, hmiss]
  have h2 : (loginHandler findByEmail2 cmp2 secret2 now2 email password store2).1
      = { status := 401, success := false, message := "Invalid email or password" } := by
    simp only [loginHandler, hvalid, Bool.not_true, Bool.false_eq_true, if_false, hhit,
      hbad, Bool.not_false, if_true]
  exact ⟨h1.trans h2.symm, by rw [h1], by rw [h1]⟩

/-- Witness for C8: a concrete miss and a concrete wrong-password hit
produce the same response. -/
theorem login_indistinguishable_witness :
    (loginHandler (fun _ => none) (fun _ _ => true) "s1" 0
        (some "a@b.c") (some "x") []).1 =
      (loginHandler (fun _ => some ⟨1, "a@b.c", some "h", "n", none⟩)
        (fun _ _ => false) "s2" 9 (some "a@b.c") (some "x") []).1 :=
  (login_indistinguishable (fun _ => none)
    (fun _ => some ⟨1, "a@b.c", some "h", "n", none⟩)
    (fun _ _ => true) (fun _ _ => false) "s1" "s2" 0 9
    (some "a@b.c") (some "x") [] [] ⟨1, "a@b.c", some "h", "n", none⟩
    (by decide) rfl rfl rfl).1

end JustFitness
